import Mathlib

/-!
Verification of the weather bot (src/bot.py, src/render_wakeup.py).

Strings are modelled as lists of Unicode codepoints (Python strings are
sequences of codepoints).  The case functions model Python str.lower /
str.upper / str.title / str.strip over the alphabet the program works with:
ASCII letters, the Cyrillic block (А-Я, а-я, Ё, ё) and ASCII whitespace.
All other codepoints are left unchanged and treated as uncased, which agrees
with Python on every character that appears in the program's data.
-/

/-- A Python string: its list of Unicode codepoints. -/
abbrev PyStr := List Nat

/-- Python str.lower on one codepoint (ASCII + Cyrillic). -/
def pyLower (c : Nat) : Nat :=
  if 65 ≤ c ∧ c ≤ 90 then c + 32
  else if 1040 ≤ c ∧ c ≤ 1071 then c + 32
  else if c = 1025 then 1105
  else c

/-- Python str.upper on one codepoint (ASCII + Cyrillic). -/
def pyUpper (c : Nat) : Nat :=
  if 97 ≤ c ∧ c ≤ 122 then c - 32
  else if 1072 ≤ c ∧ c ≤ 1103 then c - 32
  else if c = 1105 then 1025
  else c

/-- Whether the codepoint is a cased letter (ASCII or Cyrillic). -/
def isCased (c : Nat) : Bool :=
  decide ((65 ≤ c ∧ c ≤ 90) ∨ (97 ≤ c ∧ c ≤ 122) ∨
    (1040 ≤ c ∧ c ≤ 1103) ∨ c = 1025 ∨ c = 1105)

/-- Whether the codepoint is whitespace for str.strip. -/
def isSp (c : Nat) : Bool :=
  decide (c = 32 ∨ c = 9 ∨ c = 10 ∨ c = 13 ∨ c = 11 ∨ c = 12)

/-- Python str.strip: drop leading and trailing whitespace. -/
def pyStrip (s : PyStr) : PyStr :=
  ((s.dropWhile isSp).reverse.dropWhile isSp).reverse

/-- Worker for str.title: the flag records whether the previous
codepoint was cased (CPython do_title). -/
def pyTitleGo : Bool → PyStr → PyStr
  | _, [] => []
  | prev, c :: rest =>
    (if isCased c then (if prev then pyLower c else pyUpper c) else c)
      :: pyTitleGo (isCased c) rest

/-- Python str.title. -/
def pyTitle (s : PyStr) : PyStr := pyTitleGo false s

namespace Config

/-- bot.py line 50: CACHE_DURATION = 1800 (30 minutes), in seconds. -/
def CACHE_DURATION : Nat := 1800

/-- bot.py lines 64-75: CITY_ALIASES, written as codepoint lists.
Keys and values in source order:
"йошкар дыра"/"йошкардыра"/"йошкар" -> "Йошкар-Ола", "спб"/"питер" ->
"Санкт-Петербург", "нск" -> "Новосибирск", "екб" -> "Екатеринбург",
"казань" -> "Казань", "нн" -> "Нижний Новгород", "челяба" -> "Челябинск". -/
def CITY_ALIASES : List (PyStr × PyStr) := [
  ([1081, 1086, 1096, 1082, 1072, 1088, 32, 1076, 1099, 1088, 1072],
   [1049, 1086, 1096, 1082, 1072, 1088, 45, 1054, 1083, 1072]),
  ([1081, 1086, 1096, 1082, 1072, 1088, 1076, 1099, 1088, 1072],
   [1049, 1086, 1096, 1082, 1072, 1088, 45, 1054, 1083, 1072]),
  ([1081, 1086, 1096, 1082, 1072, 1088],
   [1049, 1086, 1096, 1082, 1072, 1088, 45, 1054, 1083, 1072]),
  ([1089, 1087, 1073],
   [1057, 1072, 1085, 1082, 1090, 45, 1055, 1077, 1090, 1077, 1088, 1073, 1091, 1088, 1075]),
  ([1087, 1080, 1090, 1077, 1088],
   [1057, 1072, 1085, 1082, 1090, 45, 1055, 1077, 1090, 1077, 1088, 1073, 1091, 1088, 1075]),
  ([1085, 1089, 1082],
   [1053, 1086, 1074, 1086, 1089, 1080, 1073, 1080, 1088, 1089, 1082]),
  ([1077, 1082, 1073],
   [1045, 1082, 1072, 1090, 1077, 1088, 1080, 1085, 1073, 1091, 1088, 1075]),
  ([1082, 1072, 1079, 1072, 1085, 1100],
   [1050, 1072, 1079, 1072, 1085, 1100]),
  ([1085, 1085],
   [1053, 1080, 1078, 1085, 1080, 1081, 32, 1053, 1086, 1074, 1075, 1086, 1088, 1086, 1076]),
  ([1095, 1077, 1083, 1103, 1073, 1072],
   [1063, 1077, 1083, 1103, 1073, 1080, 1085, 1089, 1082])]

end Config

/-- Association-list lookup used to model the dict membership test
`city_lower in Config.CITY_ALIASES` plus indexing. -/
def aliasLookup : List (PyStr × PyStr) → PyStr → Option PyStr
  | [], _ => none
  | (k, v) :: rest, key => if k = key then some v else aliasLookup rest key

/-- bot.py lines 521-531, WeatherService.normalize_city_name:
lower+strip the input, return the alias value on a dict hit, otherwise
return strip+title of the original input. -/
def normalize_city_name (city : PyStr) : PyStr :=
  match aliasLookup Config.CITY_ALIASES (pyStrip (city.map pyLower)) with
  | some v => v
  | none => pyTitle (pyStrip city)

/-- "спб" -/
def spbAlias : PyStr := [1089, 1087, 1073]

/-- "СПБ" -/
def spbUpper : PyStr := [1057, 1055, 1041]

/-- "Санкт-Петербург" -/
def spbOfficial : PyStr :=
  [1057, 1072, 1085, 1082, 1090, 45, 1055, 1077, 1090, 1077, 1088, 1073, 1091, 1088, 1075]

/-! ## Codepoint-level algebra of the case functions -/

theorem pyLower_pyLower (c : Nat) : pyLower (pyLower c) = pyLower c := by
  unfold pyLower; split_ifs <;> omega

theorem pyUpper_pyUpper (c : Nat) : pyUpper (pyUpper c) = pyUpper c := by
  unfold pyUpper; split_ifs <;> omega

theorem pyLower_pyUpper (c : Nat) : pyLower (pyUpper c) = pyLower c := by
  unfold pyUpper pyLower; split_ifs <;> omega

theorem pyUpper_pyLower (c : Nat) : pyUpper (pyLower c) = pyUpper c := by
  unfold pyLower pyUpper; split_ifs <;> omega

theorem isCased_pyLower (c : Nat) : isCased (pyLower c) = isCased c := by
  unfold pyLower isCased
  split_ifs <;> first | rfl | (rw [decide_eq_decide]; omega)

theorem isCased_pyUpper (c : Nat) : isCased (pyUpper c) = isCased c := by
  unfold pyUpper isCased
  split_ifs <;> first | rfl | (rw [decide_eq_decide]; omega)

theorem isSp_pyLower (c : Nat) : isSp (pyLower c) = isSp c := by
  unfold pyLower isSp
  split_ifs <;> first | rfl | (rw [decide_eq_decide]; omega)

theorem isSp_pyUpper (c : Nat) : isSp (pyUpper c) = isSp c := by
  unfold pyUpper isSp
  split_ifs <;> first | rfl | (rw [decide_eq_decide]; omega)

theorem pyLower_id_of_uncased (c : Nat) (h : isCased c = false) : pyLower c = c := by
  unfold isCased at h
  simp only [decide_eq_false_iff_not] at h
  unfold pyLower; split_ifs <;> omega

theorem isCased_congr_lower {c d : Nat} (h : pyLower c = pyLower d) :
    isCased c = isCased d := by
  rw [← isCased_pyLower c, h, isCased_pyLower d]

theorem pyUpper_congr_lower {c d : Nat} (h : pyLower c = pyLower d) :
    pyUpper c = pyUpper d := by
  rw [← pyUpper_pyLower c, h, pyUpper_pyLower d]

theorem eq_of_lower_eq_uncased {c d : Nat} (h : pyLower c = pyLower d)
    (hc : isCased c = false) : c = d := by
  have hd : isCased d = false := (isCased_congr_lower h) ▸ hc
  rw [← pyLower_id_of_uncased c hc, h, pyLower_id_of_uncased d hd]

/-! ## List lemmas for strip and title -/

theorem dropWhile_idem (p : Nat → Bool) (l : List Nat) :
    (l.dropWhile p).dropWhile p = l.dropWhile p := by
  induction l with
  | nil => rfl
  | cons c t ih =>
    rw [List.dropWhile_cons]
    split
    · exact ih
    · rename_i hc
      rw [List.dropWhile_cons, if_neg hc]

theorem length_dropWhile_le (p : Nat → Bool) (l : List Nat) :
    (l.dropWhile p).length ≤ l.length := by
  induction l with
  | nil => exact Nat.le_refl _
  | cons c t ih =>
    rw [List.dropWhile_cons]
    split
    · exact Nat.le_trans ih (Nat.le_succ _)
    · exact Nat.le_refl _

theorem head_false_of_dropWhile_self {p : Nat → Bool} {c : Nat} {t : List Nat}
    (h : (c :: t).dropWhile p = c :: t) : p c = false := by
  cases hc : p c with
  | false => rfl
  | true =>
    exfalso
    rw [List.dropWhile_cons, if_pos hc] at h
    have hlen := length_dropWhile_le p t
    rw [h] at hlen
    simp only [List.length_cons] at hlen
    omega

theorem dropWhile_eq_self_of_length {p : Nat → Bool} {l : List Nat}
    (h : (l.dropWhile p).length = l.length) : l.dropWhile p = l := by
  cases l with
  | nil => rfl
  | cons c t =>
    rw [List.dropWhile_cons]
    rw [List.dropWhile_cons] at h
    split
    · rename_i hc
      rw [if_pos hc] at h
      have := length_dropWhile_le p t
      simp only [List.length_cons] at h
      omega
    · rfl

theorem dropWhile_suffix_decomp (p : Nat → Bool) (l : List Nat) :
    ∃ t, t ++ l.dropWhile p = l := by
  induction l with
  | nil => exact ⟨[], rfl⟩
  | cons c t ih =>
    rw [List.dropWhile_cons]
    split
    · obtain ⟨u, hu⟩ := ih
      exact ⟨c :: u, by rw [List.cons_append, hu]⟩
    · exact ⟨[], rfl⟩

theorem dropWhile_eq_self_of_append {p : Nat → Bool} {l l' u : List Nat}
    (hl : l.dropWhile p = l) (happ : l' ++ u = l) : l'.dropWhile p = l' := by
  cases l' with
  | nil => rfl
  | cons c t =>
    have hlc : l = c :: (t ++ u) := by rw [← happ]; rfl
    rw [hlc] at hl
    have hc := head_false_of_dropWhile_self hl
    rw [List.dropWhile_cons, if_neg (by simp [hc])]

theorem dropWhile_map_of_pres (f : Nat → Nat) (hf : ∀ c, isSp (f c) = isSp c)
    (l : List Nat) : (l.map f).dropWhile isSp = (l.dropWhile isSp).map f := by
  rw [List.dropWhile_map]
  have hfe : (isSp ∘ f) = isSp := funext fun c => hf c
  rw [hfe]

theorem pyStrip_map_of_pres (f : Nat → Nat) (hf : ∀ c, isSp (f c) = isSp c)
    (l : List Nat) : pyStrip (l.map f) = (pyStrip l).map f := by
  unfold pyStrip
  rw [dropWhile_map_of_pres f hf, ← List.map_reverse,
    dropWhile_map_of_pres f hf, ← List.map_reverse]

theorem pyStrip_map_lower (l : List Nat) :
    pyStrip (l.map pyLower) = (pyStrip l).map pyLower :=
  pyStrip_map_of_pres pyLower isSp_pyLower l

theorem map_lower_titleGo (flag : Bool) (s : PyStr) :
    (pyTitleGo flag s).map pyLower = s.map pyLower := by
  induction s generalizing flag with
  | nil => rfl
  | cons c t ih =>
    simp only [pyTitleGo, List.map_cons, ih]
    congr 1
    split
    · split
      · exact pyLower_pyLower c
      · exact pyLower_pyUpper c
    · rfl

theorem map_isSp_titleGo (flag : Bool) (s : PyStr) :
    (pyTitleGo flag s).map isSp = s.map isSp := by
  induction s generalizing flag with
  | nil => rfl
  | cons c t ih =>
    simp only [pyTitleGo, List.map_cons, ih]
    congr 1
    split
    · split
      · exact isSp_pyLower c
      · exact isSp_pyUpper c
    · rfl

theorem titleGo_idem (s : PyStr) : ∀ flag,
    pyTitleGo flag (pyTitleGo flag s) = pyTitleGo flag s := by
  induction s with
  | nil => intro flag; rfl
  | cons c t ih =>
    intro flag
    cases hc : isCased c with
    | true =>
      cases flag with
      | true => simp [pyTitleGo, hc, isCased_pyLower, pyLower_pyLower, ih true]
      | false => simp [pyTitleGo, hc, isCased_pyUpper, pyUpper_pyUpper, ih true]
    | false => simp [pyTitleGo, hc, ih false]

theorem titleGo_congr_lower {s s' : PyStr}
    (h : s.map pyLower = s'.map pyLower) : ∀ flag,
    pyTitleGo flag s = pyTitleGo flag s' := by
  induction s generalizing s' with
  | nil =>
    intro flag
    cases s' with
    | nil => rfl
    | cons d t' => simp at h
  | cons c t ih =>
    intro flag
    cases s' with
    | nil => simp at h
    | cons d t' =>
      simp only [List.map_cons, List.cons.injEq] at h
      obtain ⟨hcd, htt⟩ := h
      simp only [pyTitleGo, isCased_congr_lower hcd, ih htt (isCased d)]
      congr 1
      split
      · split
        · exact hcd
        · exact pyUpper_congr_lower hcd
      · rename_i hun
        have hun' : isCased c = false := by
          rw [isCased_congr_lower hcd]; simpa using hun
        exact eq_of_lower_eq_uncased hcd hun'

theorem stripL_pyStrip (s : PyStr) : (pyStrip s).dropWhile isSp = pyStrip s := by
  have ha : (s.dropWhile isSp).dropWhile isSp = s.dropWhile isSp :=
    dropWhile_idem isSp s
  obtain ⟨u, hu⟩ := dropWhile_suffix_decomp isSp (s.dropWhile isSp).reverse
  have hpre : pyStrip s ++ u.reverse = s.dropWhile isSp := by
    unfold pyStrip
    have := congrArg List.reverse hu
    simpa [List.reverse_append] using this
  exact dropWhile_eq_self_of_append ha hpre

theorem pyStrip_idem (s : PyStr) : pyStrip (pyStrip s) = pyStrip s := by
  have h2 : (pyStrip s).reverse.dropWhile isSp = (pyStrip s).reverse := by
    unfold pyStrip
    rw [List.reverse_reverse]
    exact dropWhile_idem isSp (s.dropWhile isSp).reverse
  show (((pyStrip s).dropWhile isSp).reverse.dropWhile isSp).reverse = pyStrip s
  rw [stripL_pyStrip, h2, List.reverse_reverse]

theorem stripL_eq_of_map_isSp {x y : List Nat} (hm : x.map isSp = y.map isSp)
    (hx : x.dropWhile isSp = x) : y.dropWhile isSp = y := by
  cases x with
  | nil =>
    cases y with
    | nil => rfl
    | cons d t' => simp at hm
  | cons c t =>
    cases y with
    | nil => simp at hm
    | cons d t' =>
      simp only [List.map_cons, List.cons.injEq] at hm
      have hc := head_false_of_dropWhile_self hx
      rw [List.dropWhile_cons, if_neg (by rw [← hm.1, hc]; simp)]

theorem stripLR_of_pyStrip_self {u : PyStr} (h : pyStrip u = u) :
    u.dropWhile isSp = u ∧ u.reverse.dropWhile isSp = u.reverse := by
  have hlen1 : (u.dropWhile isSp).length ≤ u.length := length_dropWhile_le isSp u
  have hlen2 : ((u.dropWhile isSp).reverse.dropWhile isSp).length ≤
      (u.dropWhile isSp).length := by
    have := length_dropWhile_le isSp (u.dropWhile isSp).reverse
    simpa using this
  have hlen0 : (pyStrip u).length = u.length := by rw [h]
  have hlen3 : (pyStrip u).length =
      ((u.dropWhile isSp).reverse.dropWhile isSp).length := by
    unfold pyStrip; simp
  have hL : u.dropWhile isSp = u :=
    dropWhile_eq_self_of_length (by omega)
  refine ⟨hL, ?_⟩
  have : pyStrip u = (u.reverse.dropWhile isSp).reverse := by
    unfold pyStrip; rw [hL]
  have hrev := congrArg List.reverse (this ▸ h)
  simpa using hrev

theorem pyStrip_eq_self_of_stripLR {u : PyStr} (h1 : u.dropWhile isSp = u)
    (h2 : u.reverse.dropWhile isSp = u.reverse) : pyStrip u = u := by
  unfold pyStrip
  rw [h1, h2, List.reverse_reverse]

theorem pyStrip_titleGo_of_stripped {u : PyStr} (h : pyStrip u = u) (flag : Bool) :
    pyStrip (pyTitleGo flag u) = pyTitleGo flag u := by
  obtain ⟨h1, h2⟩ := stripLR_of_pyStrip_self h
  apply pyStrip_eq_self_of_stripLR
  · exact stripL_eq_of_map_isSp (by rw [map_isSp_titleGo]) h1
  · refine stripL_eq_of_map_isSp (x := u.reverse) ?_ h2
    rw [List.map_reverse, List.map_reverse, map_isSp_titleGo]

/-! ## Properties of normalize_city_name (claim C10) -/

theorem aliasLookup_mem {tbl : List (PyStr × PyStr)} {k v : PyStr}
    (h : aliasLookup tbl k = some v) : (k, v) ∈ tbl := by
  induction tbl with
  | nil => simp [aliasLookup] at h
  | cons p rest ih =>
    obtain ⟨k0, v0⟩ := p
    by_cases hk : k0 = k
    · rw [aliasLookup, if_pos hk] at h
      cases h
      rw [hk]
      exact List.mem_cons_self _ _
    · rw [aliasLookup, if_neg hk] at h
      exact List.mem_cons_of_mem _ (ih h)

theorem alias_values_fixed :
    ∀ p ∈ Config.CITY_ALIASES, normalize_city_name p.2 = p.2 := by decide

theorem normalize_key_title (s : PyStr) :
    pyStrip ((pyTitle (pyStrip s)).map pyLower) = pyStrip (s.map pyLower) := by
  unfold pyTitle
  rw [map_lower_titleGo, pyStrip_map_lower, pyStrip_idem, ← pyStrip_map_lower]

theorem normalize_city_idem (s : PyStr) :
    normalize_city_name (normalize_city_name s) = normalize_city_name s := by
  cases halias : aliasLookup Config.CITY_ALIASES (pyStrip (s.map pyLower)) with
  | some v =>
    have h1 : normalize_city_name s = v := by
      unfold normalize_city_name; rw [halias]
    rw [h1]
    exact alias_values_fixed (_, v) (aliasLookup_mem halias)
  | none =>
    have h1 : normalize_city_name s = pyTitle (pyStrip s) := by
      unfold normalize_city_name; rw [halias]
    rw [h1]
    unfold normalize_city_name
    rw [normalize_key_title, halias]
    unfold pyTitle
    rw [pyStrip_titleGo_of_stripped (pyStrip_idem s) false]
    exact titleGo_idem _ false

theorem normalize_congr_lower {s s' : PyStr}
    (h : s'.map pyLower = s.map pyLower) :
    normalize_city_name s' = normalize_city_name s := by
  unfold normalize_city_name
  rw [h]
  have ht : pyTitle (pyStrip s') = pyTitle (pyStrip s) := by
    apply titleGo_congr_lower
    rw [← pyStrip_map_lower, ← pyStrip_map_lower, h]
  rw [ht]

theorem normalize_congr_strip {s s' : PyStr} (h : pyStrip s' = pyStrip s) :
    normalize_city_name s' = normalize_city_name s := by
  unfold normalize_city_name
  rw [pyStrip_map_lower, pyStrip_map_lower, h]

/-- Claim C10: normalize_city_name is an idempotent pure function, insensitive
to letter case (inputs with the same codepoint-wise lowering normalize
identically) and to leading/trailing whitespace (inputs with the same strip
normalize identically). -/
theorem c10_normalize_idempotent_case_ws_insensitive :
    (∀ s : PyStr, normalize_city_name (normalize_city_name s) = normalize_city_name s) ∧
    (∀ s s' : PyStr, s'.map pyLower = s.map pyLower →
      normalize_city_name s' = normalize_city_name s) ∧
    (∀ s s' : PyStr, pyStrip s' = pyStrip s →
      normalize_city_name s' = normalize_city_name s) :=
  ⟨normalize_city_idem,
   fun _ _ h => normalize_congr_lower h,
   fun _ _ h => normalize_congr_strip h⟩

/-- Witness for C10 at concrete inputs: "СПБ" is a case variant of "спб" and
" спб\t\n" a whitespace variant; both normalize like "спб". -/
theorem c10_witness :
    normalize_city_name spbUpper = normalize_city_name spbAlias ∧
    normalize_city_name (32 :: spbAlias ++ [9, 10]) = normalize_city_name spbAlias :=
  ⟨c10_normalize_idempotent_case_ws_insensitive.2.1 spbAlias spbUpper (by decide),
   c10_normalize_idempotent_case_ws_insensitive.2.2 spbAlias
     (32 :: spbAlias ++ [9, 10]) (by decide)⟩

/-! ## Upstream HTTP model and fetch_weather (bot.py 533-587) -/

/-- Outcome of one aiohttp request: a completed response with a status code
and parsed JSON body, or a raised network error / timeout (any exception,
caught by the outer try in fetch_weather). -/
inductive HttpResult (β : Type) where
  | resp (status : Nat) (body : β)
  | netError
deriving DecidableEq

/-- One element of the geocoder's "results" array: latitude, longitude and
the optional "name" field (result.get("name", ...)). -/
structure GeoHit (χ : Type) where
  latitude : χ
  longitude : χ
  name : Option PyStr
deriving DecidableEq

/-- Parsed body of the forecast response: the "daily" block (left abstract here)
and the optional "timezone" field (data.get("timezone", "UTC")). -/
structure WxBody (δ : Type) where
  daily : δ
  timezone : Option PyStr
deriving DecidableEq

/-- "UTC" -/
def utcName : PyStr := [85, 84, 67]

/-- The dict fetch_weather returns on success (bot.py 575-579). -/
structure ForecastData (δ : Type) where
  city : PyStr
  daily : δ
  timezone : PyStr
deriving DecidableEq

/-- Result of one fetch_weather call, together with the log of upstream
requests it issued: geoRequests lists the geocoder queries as
(query string, language=ru flag) in order; wxRequests counts forecast
requests. -/
structure FetchResult (δ : Type) where
  forecast : Option (ForecastData δ)
  geoRequests : List (PyStr × Bool)
  wxRequests : Nat
deriving DecidableEq

/-- The weather-request half of fetch_weather (bot.py 559-581): on a 200
response build the forecast dict, otherwise fall through to None. -/
def fetchWx {χ δ : Type} (wx : χ → χ → HttpResult (WxBody δ))
    (normalized_city : PyStr) (h : GeoHit χ) : Option (ForecastData δ) :=
  match wx h.latitude h.longitude with
  | HttpResult.netError => none
  | HttpResult.resp wstatus wbody =>
    if wstatus = 200 then
      some ⟨h.name.getD normalized_city, wbody.daily, wbody.timezone.getD utcName⟩
    else none

/-- bot.py 533-587, WeatherService.fetch_weather.  geo is the geocoding
provider: geo query ru gives the response to
geocoding-api/v1/search?name=query (ru = True for the first,
language=ru request on the normalized name; ru = False for the fallback
language-neutral request on the raw city).  The fallback is issued only
when the first request returned 200 with an empty result list; a raised
network error anywhere is caught by the try/except and yields None. -/
def fetch_weather {χ δ : Type}
    (geo : PyStr → Bool → HttpResult (List (GeoHit χ)))
    (wx : χ → χ → HttpResult (WxBody δ))
    (city : PyStr) : FetchResult δ :=
  let normalized_city := normalize_city_name city
  match geo normalized_city true with
  | HttpResult.netError => ⟨none, [(normalized_city, true)], 0⟩
  | HttpResult.resp gstatus gbody =>
    if gstatus = 200 then
      match gbody with
      | [] =>
        match geo city false with
        | HttpResult.netError => ⟨none, [(normalized_city, true), (city, false)], 0⟩
        | HttpResult.resp estatus ebody =>
          if estatus = 200 then
            match ebody with
            | [] => ⟨none, [(normalized_city, true), (city, false)], 0⟩
            | h :: _ =>
              ⟨fetchWx wx normalized_city h, [(normalized_city, true), (city, false)], 1⟩
          else ⟨none, [(normalized_city, true), (city, false)], 0⟩
      | h :: _ => ⟨fetchWx wx normalized_city h, [(normalized_city, true)], 1⟩
    else ⟨none, [(normalized_city, true)], 0⟩

/-! ## The weather_cache table and get_weather_forecast (bot.py 366-404, 589-608) -/

/-- One row of the weather_cache table: city TEXT PRIMARY KEY, data,
timestamp (epoch seconds). -/
structure CacheRow (α : Type) where
  city : PyStr
  data : α
  timestamp : Nat
deriving DecidableEq

/-- The weather_cache table state. -/
structure DB (α : Type) where
  cache : List (CacheRow α)
deriving DecidableEq

/-- SELECT by primary key. -/
def findRow {α : Type} : List (CacheRow α) → PyStr → Option (CacheRow α)
  | [], _ => none
  | r :: rest, key => if r.city = key then some r else findRow rest key

/-- INSERT ... ON CONFLICT (city) DO UPDATE SET data, timestamp. -/
def upsertRow {α : Type} : List (CacheRow α) → PyStr → α → Nat → List (CacheRow α)
  | [], key, d, t => [⟨key, d, t⟩]
  | r :: rest, key, d, t =>
    if r.city = key then ⟨key, d, t⟩ :: rest else r :: upsertRow rest key d t

/-- bot.py 366-384, Database.cache_weather_data: upsert the row for city
with the fresh payload and timestamp = CURRENT_TIMESTAMP (the now
argument, epoch seconds). -/
def cache_weather_data {α : Type} (db : DB α) (city : PyStr) (data : α)
    (now : Nat) : DB α :=
  ⟨upsertRow db.cache city data now⟩

/-- bot.py 386-404, Database.get_cached_weather: SELECT data FROM
weather_cache WHERE city = key AND EXTRACT(EPOCH FROM (CURRENT_TIMESTAMP -
timestamp)) < max_age.  The age test is a strict inequality.  In the
source max_age is a default parameter equal to Config.CACHE_DURATION and
every caller uses the default. -/
def get_cached_weather {α : Type} (db : DB α) (city : PyStr) (now : Nat)
    (max_age : Nat) : Option α :=
  match findRow db.cache city with
  | some r => if now - r.timestamp < max_age then some r.data else none
  | none => none

/-- Result of one get_weather_forecast call: the returned forecast, the
resulting cache state, the number of fetch_weather invocations, and the
upstream requests issued. -/
structure GetResult (δ : Type) where
  forecast : Option (ForecastData δ)
  db : DB (ForecastData δ)
  fetchCalls : Nat
  geoRequests : List (PyStr × Bool)
  wxRequests : Nat
deriving DecidableEq

/-- bot.py 589-608, WeatherService.get_weather_forecast: look up the cache
under the normalized name; on a hit return the cached payload (the
json.dumps/json.loads round-trip is the identity on payloads written by a
successful fetch); on a miss call fetch_weather, cache a successful result
under the normalized name, and return it. -/
def get_weather_forecast {χ δ : Type} (db : DB (ForecastData δ))
    (geo : PyStr → Bool → HttpResult (List (GeoHit χ)))
    (wx : χ → χ → HttpResult (WxBody δ))
    (city : PyStr) (now : Nat) : GetResult δ :=
  let normalized_city := normalize_city_name city
  match get_cached_weather db normalized_city now Config.CACHE_DURATION with
  | some cached => ⟨some cached, db, 0, [], 0⟩
  | none =>
    let fr := fetch_weather geo wx city
    match fr.forecast with
    | some f =>
      ⟨some f, cache_weather_data db normalized_city f now, 1,
        fr.geoRequests, fr.wxRequests⟩
    | none => ⟨none, db, 1, fr.geoRequests, fr.wxRequests⟩

theorem findRow_upsertRow {α : Type} (rows : List (CacheRow α)) (key : PyStr)
    (d : α) (t : Nat) :
    findRow (upsertRow rows key d t) key = some ⟨key, d, t⟩ := by
  induction rows with
  | nil => simp [upsertRow, findRow]
  | cons r rest ih =>
    by_cases hr : r.city = key
    · simp [upsertRow, hr, findRow]
    · simp [upsertRow, hr, findRow, ih]

/-- Claim C1: if the cache misses at t0 and the fetch succeeds with payload
f, then a second get_weather_forecast for the same city at any t1 with
t1 - t0 < 1800 returns the cached payload with no fetch_weather call and
no upstream request: the two calls issue one fetch in total. -/
theorem c1_second_call_within_ttl_hits_cache {χ χ' δ : Type}
    (db : DB (ForecastData δ))
    (geo : PyStr → Bool → HttpResult (List (GeoHit χ)))
    (wx : χ → χ → HttpResult (WxBody δ))
    (geo' : PyStr → Bool → HttpResult (List (GeoHit χ')))
    (wx' : χ' → χ' → HttpResult (WxBody δ))
    (city : PyStr) (f : ForecastData δ) (t0 t1 : Nat)
    (hmiss : get_cached_weather db (normalize_city_name city) t0
      Config.CACHE_DURATION = none)
    (hsucc : (fetch_weather geo wx city).forecast = some f)
    (_h01 : t0 ≤ t1) (httl : t1 - t0 < 1800) :
    (get_weather_forecast db geo wx city t0).forecast = some f ∧
    (get_weather_forecast db geo wx city t0).fetchCalls = 1 ∧
    (get_weather_forecast (get_weather_forecast db geo wx city t0).db
      geo' wx' city t1).forecast = some f ∧
    (get_weather_forecast (get_weather_forecast db geo wx city t0).db
      geo' wx' city t1).fetchCalls = 0 ∧
    (get_weather_forecast (get_weather_forecast db geo wx city t0).db
      geo' wx' city t1).geoRequests = [] ∧
    (get_weather_forecast (get_weather_forecast db geo wx city t0).db
      geo' wx' city t1).wxRequests = 0 ∧
    (get_weather_forecast db geo wx city t0).fetchCalls +
      (get_weather_forecast (get_weather_forecast db geo wx city t0).db
        geo' wx' city t1).fetchCalls = 1 := by
  have e1 : get_weather_forecast db geo wx city t0 =
      ⟨some f, cache_weather_data db (normalize_city_name city) f t0, 1,
        (fetch_weather geo wx city).geoRequests,
        (fetch_weather geo wx city).wxRequests⟩ := by
    simp only [get_weather_forecast, hmiss, hsucc]
  have hc2 : get_cached_weather
      (cache_weather_data db (normalize_city_name city) f t0)
      (normalize_city_name city) t1 Config.CACHE_DURATION = some f := by
    unfold get_cached_weather cache_weather_data
    rw [findRow_upsertRow]
    show (if t1 - t0 < Config.CACHE_DURATION then some f else none) = some f
    rw [if_pos (by unfold Config.CACHE_DURATION; omega)]
  have e2 : get_weather_forecast
      (cache_weather_data db (normalize_city_name city) f t0)
      geo' wx' city t1 = ⟨some f,
        cache_weather_data db (normalize_city_name city) f t0, 0, [], 0⟩ := by
    simp only [get_weather_forecast, hc2]
  rw [e1]
  simp only [e2]
  simp

/-- A stub geocoder that always answers 200 with one hit at (0, 0). -/
def geoC : PyStr → Bool → HttpResult (List (GeoHit Nat)) :=
  fun _ _ => HttpResult.resp 200 [⟨0, 0, none⟩]

/-- A stub forecast provider that always answers 200 with daily payload 7. -/
def wxC : Nat → Nat → HttpResult (WxBody Nat) :=
  fun _ _ => HttpResult.resp 200 ⟨7, none⟩

/-- A geocoder whose requests always raise a network error. -/
def geoErr : PyStr → Bool → HttpResult (List (GeoHit Nat)) :=
  fun _ _ => HttpResult.netError

/-- A forecast provider whose requests always raise a network error. -/
def wxErr : Nat → Nat → HttpResult (WxBody Nat) :=
  fun _ _ => HttpResult.netError

/-- The forecast geoC/wxC produce for "спб". -/
def fcNat : ForecastData Nat := ⟨spbOfficial, 7, utcName⟩

/-- A cache holding one entry for the normalized key of "спб", written at
time 0. -/
def dbOne : DB (ForecastData Nat) := ⟨[⟨spbOfficial, fcNat, 0⟩]⟩

/-- Witness for C1 at concrete inputs: stub providers, first call at 0,
second at 100. -/
theorem c1_witness :
    (get_weather_forecast (DB.mk [] : DB (ForecastData Nat)) geoC wxC spbAlias 0).forecast = some fcNat ∧
    (get_weather_forecast (DB.mk [] : DB (ForecastData Nat)) geoC wxC spbAlias 0).fetchCalls = 1 ∧
    (get_weather_forecast (get_weather_forecast (DB.mk [] : DB (ForecastData Nat)) geoC wxC spbAlias 0).db
      geoC wxC spbAlias 100).forecast = some fcNat ∧
    (get_weather_forecast (get_weather_forecast (DB.mk [] : DB (ForecastData Nat)) geoC wxC spbAlias 0).db
      geoC wxC spbAlias 100).fetchCalls = 0 ∧
    (get_weather_forecast (get_weather_forecast (DB.mk [] : DB (ForecastData Nat)) geoC wxC spbAlias 0).db
      geoC wxC spbAlias 100).geoRequests = [] ∧
    (get_weather_forecast (get_weather_forecast (DB.mk [] : DB (ForecastData Nat)) geoC wxC spbAlias 0).db
      geoC wxC spbAlias 100).wxRequests = 0 ∧
    (get_weather_forecast (DB.mk [] : DB (ForecastData Nat)) geoC wxC spbAlias 0).fetchCalls +
      (get_weather_forecast (get_weather_forecast (DB.mk [] : DB (ForecastData Nat)) geoC wxC spbAlias 0).db
        geoC wxC spbAlias 100).fetchCalls = 1 :=
  c1_second_call_within_ttl_hits_cache (DB.mk []) geoC wxC geoC wxC spbAlias
    fcNat 0 100 (by decide) (by decide) (by decide) (by decide)

/-- Claim C2: with a row present for the normalized key, the cache serves
it iff its age is strictly below 1800 seconds (the CACHE_DURATION
default); at or past expiry the lookup is empty and get_weather_forecast
issues a new fetch even though the stored row came from a successful
fetch. -/
theorem c2_ttl_strict_and_stale_never_served {χ δ : Type}
    (db : DB (ForecastData δ))
    (geo : PyStr → Bool → HttpResult (List (GeoHit χ)))
    (wx : χ → χ → HttpResult (WxBody δ))
    (city : PyStr) (row : CacheRow (ForecastData δ)) (now : Nat)
    (hrow : findRow db.cache (normalize_city_name city) = some row) :
    Config.CACHE_DURATION = 1800 ∧
    (get_cached_weather db (normalize_city_name city) now Config.CACHE_DURATION
        = some row.data ↔ now - row.timestamp < 1800) ∧
    (1800 ≤ now - row.timestamp →
      get_cached_weather db (normalize_city_name city) now Config.CACHE_DURATION
        = none ∧
      (get_weather_forecast db geo wx city now).fetchCalls = 1) := by
  refine ⟨rfl, ?_, ?_⟩
  · unfold get_cached_weather
    rw [hrow]
    show (if now - row.timestamp < Config.CACHE_DURATION
        then some row.data else none) = some row.data ↔ _
    unfold Config.CACHE_DURATION
    split_ifs with hlt
    · simp [hlt]
    · simp [hlt]
  · intro hage
    have hnone : get_cached_weather db (normalize_city_name city) now
        Config.CACHE_DURATION = none := by
      unfold get_cached_weather
      rw [hrow]
      show (if now - row.timestamp < Config.CACHE_DURATION
          then some row.data else none) = none
      rw [if_neg (by unfold Config.CACHE_DURATION; omega)]
    refine ⟨hnone, ?_⟩
    cases hf : (fetch_weather geo wx city).forecast with
    | some f => simp [get_weather_forecast, hnone, hf]
    | none => simp [get_weather_forecast, hnone, hf]

/-- Witness for C2: a row cached at time 0 queried at exactly 1800 is not
served and a fetch is issued. -/
theorem c2_witness :
    get_cached_weather dbOne (normalize_city_name spbAlias) 1800
      Config.CACHE_DURATION = none ∧
    (get_weather_forecast dbOne geoC wxC spbAlias 1800).fetchCalls = 1 :=
  (c2_ttl_strict_and_stale_never_served dbOne geoC wxC spbAlias
    ⟨spbOfficial, fcNat, 0⟩ 1800 (by decide)).2.2 (by decide)

/-- Claim C3: when the cache misses and fetch_weather fails (returns no
forecast), get_weather_forecast returns the failure and leaves the cache
table exactly as it was: no entry is evicted or overwritten. -/
theorem c3_failed_fetch_leaves_cache_unchanged {χ δ : Type}
    (db : DB (ForecastData δ))
    (geo : PyStr → Bool → HttpResult (List (GeoHit χ)))
    (wx : χ → χ → HttpResult (WxBody δ))
    (city : PyStr) (now : Nat)
    (hmiss : get_cached_weather db (normalize_city_name city) now
      Config.CACHE_DURATION = none)
    (hfail : (fetch_weather geo wx city).forecast = none) :
    (get_weather_forecast db geo wx city now).forecast = none ∧
    (get_weather_forecast db geo wx city now).db = db ∧
    (get_weather_forecast db geo wx city now).fetchCalls = 1 := by
  simp [get_weather_forecast, hmiss, hfail]

/-- Witness for C3: a stale entry for "спб" is still present and untouched
after a failed refresh at time 2000. -/
theorem c3_witness :
    (get_weather_forecast dbOne geoErr wxErr spbAlias 2000).forecast = none ∧
    (get_weather_forecast dbOne geoErr wxErr spbAlias 2000).db = dbOne ∧
    (get_weather_forecast dbOne geoErr wxErr spbAlias 2000).fetchCalls = 1 :=
  c3_failed_fetch_leaves_cache_unchanged dbOne geoErr wxErr spbAlias 2000
    (by decide) (by decide)

/-- Claim C5: "спб" and "Санкт-Петербург" normalize to the same key, and a
forecast cached through the alias is returned, without any new fetch, to a
later request through the official spelling (same cache entry). -/
theorem c5_alias_and_official_share_cache_entry :
    normalize_city_name spbAlias = normalize_city_name spbOfficial ∧
    ∀ (χ χ' δ : Type)
      (geo : PyStr → Bool → HttpResult (List (GeoHit χ)))
      (wx : χ → χ → HttpResult (WxBody δ))
      (geo' : PyStr → Bool → HttpResult (List (GeoHit χ')))
      (wx' : χ' → χ' → HttpResult (WxBody δ))
      (f : ForecastData δ) (t1 : Nat),
      (fetch_weather geo wx spbAlias).forecast = some f →
      t1 < 1800 →
      (get_weather_forecast
        (get_weather_forecast (DB.mk [] : DB (ForecastData δ)) geo wx spbAlias 0).db
        geo' wx' spbOfficial t1).forecast = some f ∧
      (get_weather_forecast
        (get_weather_forecast (DB.mk [] : DB (ForecastData δ)) geo wx spbAlias 0).db
        geo' wx' spbOfficial t1).fetchCalls = 0 := by
  refine ⟨by decide, ?_⟩
  intro χ χ' δ geo wx geo' wx' f t1 hsucc httl
  have hkey : normalize_city_name spbOfficial = normalize_city_name spbAlias := by
    decide
  have hmiss : get_cached_weather (DB.mk [] : DB (ForecastData δ))
      (normalize_city_name spbAlias) 0 Config.CACHE_DURATION = none := rfl
  have e1 : get_weather_forecast (DB.mk [] : DB (ForecastData δ)) geo wx spbAlias 0 =
      ⟨some f, cache_weather_data (DB.mk []) (normalize_city_name spbAlias) f 0, 1,
        (fetch_weather geo wx spbAlias).geoRequests,
        (fetch_weather geo wx spbAlias).wxRequests⟩ := by
    simp only [get_weather_forecast, hmiss, hsucc]
  rw [e1]
  have hc2 : get_cached_weather
      (cache_weather_data (DB.mk [] : DB (ForecastData δ))
        (normalize_city_name spbAlias) f 0)
      (normalize_city_name spbOfficial) t1 Config.CACHE_DURATION = some f := by
    rw [hkey]
    unfold get_cached_weather cache_weather_data
    rw [findRow_upsertRow]
    show (if t1 - 0 < Config.CACHE_DURATION then some f else none) = some f
    rw [if_pos (by unfold Config.CACHE_DURATION; omega)]
  simp only [get_weather_forecast, hc2]
  exact ⟨trivial, trivial⟩

/-- Witness for C5: cache through "спб" at 0 with the stub providers, read
through "Санкт-Петербург" at 60. -/
theorem c5_witness :
    (get_weather_forecast
      (get_weather_forecast (DB.mk [] : DB (ForecastData Nat)) geoC wxC spbAlias 0).db
      geoC wxC spbOfficial 60).forecast = some fcNat ∧
    (get_weather_forecast
      (get_weather_forecast (DB.mk [] : DB (ForecastData Nat)) geoC wxC spbAlias 0).db
      geoC wxC spbOfficial 60).fetchCalls = 0 :=
  c5_alias_and_official_share_cache_entry.2 Nat Nat Nat geoC wxC geoC wxC
    fcNat 60 (by decide) (by decide)

/-- A stub geocoder that always answers 200 with an empty result list. -/
def geoEmpty : PyStr → Bool → HttpResult (List (GeoHit Nat)) :=
  fun _ _ => HttpResult.resp 200 []

/-- Claim C4: fetch_weather issues at most two geocoding requests, in a
fixed order; the first is always the language=ru search on the normalized
name; a second request (the language-neutral search on the raw query) is
issued exactly when the first returned 200 with an empty result list; when
the first attempt yields a result, no second request is issued. -/
theorem c4_geocode_two_attempts_fixed_order {χ δ : Type}
    (geo : PyStr → Bool → HttpResult (List (GeoHit χ)))
    (wx : χ → χ → HttpResult (WxBody δ)) (city : PyStr) :
    (fetch_weather geo wx city).geoRequests.length ≤ 2 ∧
    (fetch_weather geo wx city).geoRequests.head? =
      some (normalize_city_name city, true) ∧
    (2 ≤ (fetch_weather geo wx city).geoRequests.length →
      geo (normalize_city_name city) true = HttpResult.resp 200 [] ∧
      (fetch_weather geo wx city).geoRequests =
        [(normalize_city_name city, true), (city, false)]) ∧
    (∀ (h : GeoHit χ) (t : List (GeoHit χ)) (s : Nat),
      geo (normalize_city_name city) true = HttpResult.resp s (h :: t) →
      (fetch_weather geo wx city).geoRequests =
        [(normalize_city_name city, true)])  := by
  cases hg : geo (normalize_city_name city) true with
  | netError => simp [fetch_weather, hg]
  | resp gs gb =>
    by_cases hs200 : gs = 200
    · subst hs200
      cases gb with
      | nil =>
        cases hge : geo city false with
        | netError => simp [fetch_weather, hg, hge]
        | resp es eb =>
          by_cases he200 : es = 200
          · subst he200
            cases eb with
            | nil => simp [fetch_weather, hg, hge]
            | cons h t => simp [fetch_weather, hg, hge]
          · simp [fetch_weather, hg, hge, he200]
      | cons h t => simp [fetch_weather, hg]
    · simp [fetch_weather, hg, hs200]

/-- Witness for C4: with a geocoder that answers the first request, only
that one request is issued; with one that answers 200-empty, exactly the
two requests are issued in order. -/
theorem c4_witness :
    (fetch_weather geoC wxC spbAlias).geoRequests =
      [(normalize_city_name spbAlias, true)] ∧
    (geoEmpty (normalize_city_name spbAlias) true = HttpResult.resp 200 [] ∧
     (fetch_weather geoEmpty wxC spbAlias).geoRequests =
       [(normalize_city_name spbAlias, true), (spbAlias, false)]) :=
  ⟨(c4_geocode_two_attempts_fixed_order geoC wxC spbAlias).2.2.2
      ⟨0, 0, none⟩ [] 200 (by decide),
   (c4_geocode_two_attempts_fixed_order geoEmpty wxC spbAlias).2.2.1
      (by decide)⟩

theorem fetch_forecast_none_of_wx_fail {χ δ : Type}
    (geo : PyStr → Bool → HttpResult (List (GeoHit χ)))
    (wx : χ → χ → HttpResult (WxBody δ)) (city : PyStr)
    (hwx : ∀ (h : GeoHit χ), fetchWx wx (normalize_city_name city) h = none) :
    (fetch_weather geo wx city).forecast = none := by
  cases hg : geo (normalize_city_name city) true with
  | netError => simp [fetch_weather, hg]
  | resp gs gb =>
    by_cases hs200 : gs = 200
    · subst hs200
      cases gb with
      | nil =>
        cases hge : geo city false with
        | netError => simp [fetch_weather, hg, hge]
        | resp es eb =>
          by_cases he200 : es = 200
          · subst he200
            cases eb with
            | nil => simp [fetch_weather, hg, hge]
            | cons h t => simp [fetch_weather, hg, hge, hwx]
          · simp [fetch_weather, hg, hge, he200]
      | cons h t => simp [fetch_weather, hg, hwx]
    · simp [fetch_weather, hg, hs200]

/-- Claim C6: whenever resolution fails - the first geocoding request
raises a network error, or completes with a non-200 status, or both
geocoding attempts return empty/failed answers - and likewise when the
forecast request fails, fetch_weather evaluates to None; no exception
escapes (the model is a total function into Option, mirroring the
try/except that converts every raised error into None). -/
theorem c6_failure_paths_return_none {χ δ : Type}
    (geo : PyStr → Bool → HttpResult (List (GeoHit χ)))
    (wx : χ → χ → HttpResult (WxBody δ)) (city : PyStr) :
    (geo (normalize_city_name city) true = HttpResult.netError →
      (fetch_weather geo wx city).forecast = none) ∧
    (∀ (s : Nat) (gb : List (GeoHit χ)),
      geo (normalize_city_name city) true = HttpResult.resp s gb → s ≠ 200 →
      (fetch_weather geo wx city).forecast = none) ∧
    (geo (normalize_city_name city) true = HttpResult.resp 200 [] →
      geo city false = HttpResult.netError →
      (fetch_weather geo wx city).forecast = none) ∧
    (geo (normalize_city_name city) true = HttpResult.resp 200 [] →
      geo city false = HttpResult.resp 200 [] →
      (fetch_weather geo wx city).forecast = none) ∧
    (∀ (s : Nat) (eb : List (GeoHit χ)),
      geo (normalize_city_name city) true = HttpResult.resp 200 [] →
      geo city false = HttpResult.resp s eb → s ≠ 200 →
      (fetch_weather geo wx city).forecast = none) ∧
    ((∀ a b, wx a b = HttpResult.netError) →
      (fetch_weather geo wx city).forecast = none) ∧
    (∀ (s : Nat) (w : WxBody δ), s ≠ 200 → (∀ a b, wx a b = HttpResult.resp s w) →
      (fetch_weather geo wx city).forecast = none) := by
  refine ⟨?_, ?_, ?_, ?_, ?_, ?_, ?_⟩
  · intro hg; simp [fetch_weather, hg]
  · intro s gb hg hs; simp [fetch_weather, hg, hs]
  · intro hg hge; simp [fetch_weather, hg, hge]
  · intro hg hge; simp [fetch_weather, hg, hge]
  · intro s eb hg hge hs; simp [fetch_weather, hg, hge, hs]
  · intro hwx
    exact fetch_forecast_none_of_wx_fail geo wx city
      (fun h => by simp [fetchWx, hwx])
  · intro s w hs hwx
    exact fetch_forecast_none_of_wx_fail geo wx city
      (fun h => by simp [fetchWx, hwx, hs])

/-- Witness for C6: a network error on the first geocoding request and a
definitive double no-match both yield None. -/
theorem c6_witness :
    (fetch_weather geoErr wxC spbAlias).forecast = none ∧
    (fetch_weather geoEmpty wxC spbAlias).forecast = none :=
  ⟨(c6_failure_paths_return_none geoErr wxC spbAlias).1 (by decide),
   (c6_failure_paths_return_none geoEmpty wxC spbAlias).2.2.2.1
     (by decide) (by decide)⟩

/-! ## SubscriptionStore.listDue (modelled from the spec, claim C9) -/

/-- Modelled from the spec: the repository sources contain no
SubscriptionStore or notification scheduler; this is the Subscription
record of spec section 3 (userID, city key, local trigger minute, derived
UTC trigger minute, enabled flag, last fired UTC date). -/
structure Subscription where
  userID : Nat
  city : PyStr
  localTime : Nat
  triggerUTC : Nat
  enabled : Bool
  lastFiredDate : Option Nat
deriving DecidableEq

/-- Modelled from the spec: listDue(nowUTC) returns all enabled
subscriptions whose triggerUTC equals the current UTC minute and whose
lastFiredDate differs from the current UTC date (spec section 4.3);
nowUTC is passed as the pair (today, nowMinute). -/
def listDue (subs : List Subscription) (today : Nat) (nowMinute : Nat) :
    List Subscription :=
  subs.filter (fun s =>
    s.enabled && s.triggerUTC == nowMinute && s.lastFiredDate != some today)

/-- Claim C9: listDue never returns a subscription whose enabled flag is
false, for any store contents and any UTC instant. -/
theorem c9_disabled_never_listed (subs : List Subscription)
    (today nowMinute : Nat) (s : Subscription) (hs : s.enabled = false) :
    s ∉ listDue subs today nowMinute := by
  intro hmem
  rw [listDue, List.mem_filter] at hmem
  have h2 := hmem.2
  simp [hs] at h2

/-- A disabled subscription that would otherwise be due. -/
def subOff : Subscription := ⟨1, spbOfficial, 300, 300, false, none⟩

/-- Witness for C9: the disabled subscription is not listed even at its
own trigger minute. -/
theorem c9_witness : subOff.enabled = false ∧ subOff ∉ listDue [subOff] 0 300 :=
  ⟨rfl, c9_disabled_never_listed [subOff] 0 300 subOff rfl⟩

/-! ## render_wakeup.py: wakeup_render_once (claim C7) -/

namespace RenderConfig

/-- render_wakeup.py line 21. -/
def WAKEUP_INTERVAL : Nat := 300

/-- render_wakeup.py line 22. -/
def MAX_RETRIES : Nat := 3

/-- render_wakeup.py line 23. -/
def RETRY_DELAY : Nat := 5

/-- render_wakeup.py line 24. -/
def TIMEOUT : Nat := 30

end RenderConfig

/-- Outcome of one wakeup attempt: a completed HTTP response with a status
code, or a raised exception (aiohttp.ClientError, asyncio.TimeoutError or
any other - all three except branches behave identically). -/
inductive WakeAttempt where
  | status (s : Nat)
  | netError
deriving DecidableEq

/-- render_wakeup.py line 60: response.status in [200, 201, 202, 204]. -/
def successStatus (s : Nat) : Bool :=
  decide (s = 200 ∨ s = 201 ∨ s = 202 ∨ s = 204)

/-- Whether an attempt makes wakeup_render_once return True. -/
def attemptOk : WakeAttempt → Bool
  | WakeAttempt.status s => successStatus s
  | WakeAttempt.netError => false

/-- The retry loop of wakeup_render_once (render_wakeup.py 44-79): attempt
index i with `remaining` iterations left; returns (result, attempts made,
list of sleeps taken between consecutive attempts).  A success returns
True immediately; a failed attempt is followed by a RETRY_DELAY sleep
unless it was the last; after the loop the function returns False. -/
def wakeupFrom (oracle : Nat → WakeAttempt) (i : Nat) :
    Nat → Bool × Nat × List Nat
  | 0 => (false, 0, [])
  | r + 1 =>
    if attemptOk (oracle i) then (true, 1, [])
    else if r = 0 then (false, 1, [])
    else
      let rest := wakeupFrom oracle (i + 1) r
      (rest.1, rest.2.1 + 1, RenderConfig.RETRY_DELAY :: rest.2.2)

/-- render_wakeup.py 38-79, wakeup_render_once with the URL configured:
run the for-loop over range(MAX_RETRIES). -/
def wakeup_render_once (oracle : Nat → WakeAttempt) : Bool × Nat × List Nat :=
  wakeupFrom oracle 0 RenderConfig.MAX_RETRIES

/-- An oracle whose every attempt raises a network error. -/
def oracleFail : Nat → WakeAttempt := fun _ => WakeAttempt.netError

/-- An oracle that fails once with a network error, then succeeds. -/
def oracleSecond : Nat → WakeAttempt := fun i =>
  if i = 0 then WakeAttempt.netError else WakeAttempt.status 200

/-- Counterexample to C7 as stated: in fetch_weather a transport failure
on the first upstream HTTP call is NOT retried - the failure is surfaced
as None after exactly one geocoding request and zero further attempts,
contradicting "transport failures on upstream HTTP calls are retried ...
at most 3 attempts, with a fixed short delay between consecutive
attempts". -/
theorem c7_counterexample :
    (fetch_weather geoErr wxErr spbAlias).forecast = none ∧
    (fetch_weather geoErr wxErr spbAlias).geoRequests.length = 1 ∧
    (fetch_weather geoErr wxErr spbAlias).wxRequests = 0 ∧
    ¬ 2 ≤ (fetch_weather geoErr wxErr spbAlias).geoRequests.length +
        (fetch_weather geoErr wxErr spbAlias).wxRequests := by
  decide

theorem fetch_weather_geoRequests_shape {χ δ : Type}
    (geo : PyStr → Bool → HttpResult (List (GeoHit χ)))
    (wx : χ → χ → HttpResult (WxBody δ)) (city : PyStr) :
    (fetch_weather geo wx city).geoRequests =
      [(normalize_city_name city, true)] ∨
    (fetch_weather geo wx city).geoRequests =
      [(normalize_city_name city, true), (city, false)] := by
  cases hg : geo (normalize_city_name city) true with
  | netError => simp [fetch_weather, hg]
  | resp gs gb =>
    by_cases hs200 : gs = 200
    · subst hs200
      cases gb with
      | nil =>
        cases hge : geo city false with
        | netError => simp [fetch_weather, hg, hge]
        | resp es eb =>
          by_cases he200 : es = 200
          · subst he200
            cases eb with
            | nil => simp [fetch_weather, hg, hge]
            | cons h t => simp [fetch_weather, hg, hge]
          · simp [fetch_weather, hg, hge, he200]
      | cons h t => simp [fetch_weather, hg]
    · simp [fetch_weather, hg, hs200]

/-- Claim C7 amended: the bounded-retry behaviour lives in the wakeup
service only.  wakeup_render_once retries every failed attempt (transport
error or non-success status alike) up to MAX_RETRIES = 3 total attempts
with a fixed RETRY_DELAY = 5 second sleep between consecutive attempts,
returns True at the first successful status, and returns False only after
all three attempts failed.  fetch_weather never retries: each geocoding
request is issued at most once (the request list has no duplicates), and a
transport failure on the first geocoding call is surfaced as None after
that single attempt. -/
theorem c7_amended_retries_only_in_wakeup :
    (∀ oracle : Nat → WakeAttempt,
      (wakeup_render_once oracle).2.1 ≤ RenderConfig.MAX_RETRIES ∧
      (∀ d ∈ (wakeup_render_once oracle).2.2, d = RenderConfig.RETRY_DELAY) ∧
      (wakeup_render_once oracle).2.2.length + 1 =
        (wakeup_render_once oracle).2.1 ∧
      ((wakeup_render_once oracle).1 = false →
        (wakeup_render_once oracle).2.1 = 3 ∧
        attemptOk (oracle 0) = false ∧ attemptOk (oracle 1) = false ∧
        attemptOk (oracle 2) = false) ∧
      ((wakeup_render_once oracle).1 = true →
        ((wakeup_render_once oracle).2.1 = 1 ∧ attemptOk (oracle 0) = true) ∨
        ((wakeup_render_once oracle).2.1 = 2 ∧ attemptOk (oracle 0) = false ∧
          attemptOk (oracle 1) = true) ∨
        ((wakeup_render_once oracle).2.1 = 3 ∧ attemptOk (oracle 0) = false ∧
          attemptOk (oracle 1) = false ∧ attemptOk (oracle 2) = true))) ∧
    (∀ (χ δ : Type) (geo : PyStr → Bool → HttpResult (List (GeoHit χ)))
      (wx : χ → χ → HttpResult (WxBody δ)) (city : PyStr),
      (fetch_weather geo wx city).geoRequests.Nodup ∧
      (geo (normalize_city_name city) true = HttpResult.netError →
        (fetch_weather geo wx city).forecast = none ∧
        (fetch_weather geo wx city).geoRequests.length = 1)) := by
  constructor
  · intro oracle
    cases h0 : attemptOk (oracle 0) with
    | true =>
      simp [wakeup_render_once, wakeupFrom, RenderConfig.MAX_RETRIES,
        RenderConfig.RETRY_DELAY, h0]
    | false =>
      cases h1 : attemptOk (oracle 1) with
      | true =>
        simp [wakeup_render_once, wakeupFrom, RenderConfig.MAX_RETRIES,
          RenderConfig.RETRY_DELAY, h0, h1]
      | false =>
        cases h2 : attemptOk (oracle 2) with
        | true =>
          simp [wakeup_render_once, wakeupFrom, RenderConfig.MAX_RETRIES,
            RenderConfig.RETRY_DELAY, h0, h1, h2]
        | false =>
          simp [wakeup_render_once, wakeupFrom, RenderConfig.MAX_RETRIES,
            RenderConfig.RETRY_DELAY, h0, h1, h2]
  · intro χ δ geo wx city
    constructor
    · rcases fetch_weather_geoRequests_shape geo wx city with h | h <;> rw [h] <;> simp
    · intro hg
      simp [fetch_weather, hg]

/-- Witness for C7 amended: all three wakeup attempts fail with network
errors, giving False after 3 attempts and 5-second sleeps; one failing
then succeeding oracle returns True on the second attempt; fetch_weather
with a failing geocoder issues one request. -/
theorem c7_amended_witness :
    (wakeup_render_once oracleFail).1 = false ∧
    (wakeup_render_once oracleFail).2.1 = 3 ∧
    (wakeup_render_once oracleFail).2.2 = [5, 5] ∧
    (wakeup_render_once oracleSecond).1 = true ∧
    (wakeup_render_once oracleSecond).2.1 = 2 ∧
    (fetch_weather geoErr wxErr spbAlias).geoRequests.length = 1 := by
  refine ⟨by decide, by decide, by decide, by decide, by decide, ?_⟩
  exact ((c7_amended_retries_only_in_wakeup.2 Nat Nat geoErr wxErr spbAlias).2
    (by decide)).2

/-! ## Concurrency model for get_weather_forecast (claim C8) -/

/-- The continuation of get_weather_forecast after its awaited cache read
returned `cached`: exactly the remainder of bot.py 589-608 (return the hit,
or fetch and cache a successful result).  Splitting the call at this await
point is what allows another coroutine to run between the cache read and
the cache write. -/
def get_weather_forecast_cont {χ δ : Type} (db : DB (ForecastData δ))
    (geo : PyStr → Bool → HttpResult (List (GeoHit χ)))
    (wx : χ → χ → HttpResult (WxBody δ))
    (city : PyStr) (now : Nat) (cached : Option (ForecastData δ)) : GetResult δ :=
  match cached with
  | some c => ⟨some c, db, 0, [], 0⟩
  | none =>
    let fr := fetch_weather geo wx city
    match fr.forecast with
    | some f =>
      ⟨some f, cache_weather_data db (normalize_city_name city) f now, 1,
        fr.geoRequests, fr.wxRequests⟩
    | none => ⟨none, db, 1, fr.geoRequests, fr.wxRequests⟩

/-- The split is the same code: running the continuation on the cache read
result is get_weather_forecast. -/
theorem get_weather_forecast_eq_cont {χ δ : Type} (db : DB (ForecastData δ))
    (geo : PyStr → Bool → HttpResult (List (GeoHit χ)))
    (wx : χ → χ → HttpResult (WxBody δ)) (city : PyStr) (now : Nat) :
    get_weather_forecast db geo wx city now =
      get_weather_forecast_cont db geo wx city now
        (get_cached_weather db (normalize_city_name city) now
          Config.CACHE_DURATION) := rfl

/-- Two concurrent get_weather_forecast calls interleaved at the await
point: both cache reads are served from the initial state db0 (call B
starts while call A's fetch is still outstanding); A then fetches and
writes, then B runs its continuation against A's resulting state. -/
def interleaved_two_gets {χ χ' δ : Type} (db0 : DB (ForecastData δ))
    (geoA : PyStr → Bool → HttpResult (List (GeoHit χ)))
    (wxA : χ → χ → HttpResult (WxBody δ))
    (geoB : PyStr → Bool → HttpResult (List (GeoHit χ')))
    (wxB : χ' → χ' → HttpResult (WxBody δ))
    (cityA cityB : PyStr) (now : Nat) : GetResult δ × GetResult δ :=
  let cA := get_cached_weather db0 (normalize_city_name cityA) now
    Config.CACHE_DURATION
  let cB := get_cached_weather db0 (normalize_city_name cityB) now
    Config.CACHE_DURATION
  let rA := get_weather_forecast_cont db0 geoA wxA cityA now cA
  let rB := get_weather_forecast_cont rA.db geoB wxB cityB now cB
  (rA, rB)

/-- A stub forecast provider distinguishable from wxC. -/
def wxC2 : Nat → Nat → HttpResult (WxBody Nat) :=
  fun _ _ => HttpResult.resp 200 ⟨8, none⟩

/-- Counterexample to C8 as stated: two concurrent calls for the same
normalized key ("спб"), both starting on an empty cache while neither
fetch has completed, each issue their own upstream fetch (2 in total, not
1) and return their own provider's payload rather than sharing one
result: the code has no single-flight mechanism. -/
theorem c8_counterexample :
    (interleaved_two_gets (DB.mk [] : DB (ForecastData Nat)) geoC wxC geoC wxC2
      spbAlias spbAlias 0).1.fetchCalls = 1 ∧
    (interleaved_two_gets (DB.mk [] : DB (ForecastData Nat)) geoC wxC geoC wxC2
      spbAlias spbAlias 0).2.fetchCalls = 1 ∧
    ¬ ((interleaved_two_gets (DB.mk [] : DB (ForecastData Nat)) geoC wxC geoC wxC2
        spbAlias spbAlias 0).1.fetchCalls +
       (interleaved_two_gets (DB.mk [] : DB (ForecastData Nat)) geoC wxC geoC wxC2
        spbAlias spbAlias 0).2.fetchCalls ≤ 1) ∧
    (interleaved_two_gets (DB.mk [] : DB (ForecastData Nat)) geoC wxC geoC wxC2
      spbAlias spbAlias 0).2.forecast = some ⟨spbOfficial, 8, utcName⟩ ∧
    (interleaved_two_gets (DB.mk [] : DB (ForecastData Nat)) geoC wxC geoC wxC2
      spbAlias spbAlias 0).2.forecast ≠
    (interleaved_two_gets (DB.mk [] : DB (ForecastData Nat)) geoC wxC geoC wxC2
      spbAlias spbAlias 0).1.forecast := by
  decide

theorem cont_none_fetchCalls {χ δ : Type} (db : DB (ForecastData δ))
    (geo : PyStr → Bool → HttpResult (List (GeoHit χ)))
    (wx : χ → χ → HttpResult (WxBody δ)) (city : PyStr) (now : Nat) :
    (get_weather_forecast_cont db geo wx city now none).fetchCalls = 1 := by
  unfold get_weather_forecast_cont
  cases h : (fetch_weather geo wx city).forecast <;> simp [h]

theorem cont_none_db_of_success {χ δ : Type} (db : DB (ForecastData δ))
    (geo : PyStr → Bool → HttpResult (List (GeoHit χ)))
    (wx : χ → χ → HttpResult (WxBody δ)) (city : PyStr) (now : Nat)
    (f : ForecastData δ) (hf : (fetch_weather geo wx city).forecast = some f) :
    (get_weather_forecast_cont db geo wx city now none).db =
      cache_weather_data db (normalize_city_name city) f now := by
  unfold get_weather_forecast_cont
  simp [hf]

/-- Claim C8 amended: the code has no single-flight mechanism.  A call
whose cache read misses while another fetch for the same key is
outstanding issues its own upstream fetch, so the two interleaved calls
perform two fetches; if the later call's fetch succeeds, its payload
overwrites the cache row for the key. -/
theorem c8_amended_no_single_flight {χ χ' δ : Type}
    (db0 : DB (ForecastData δ))
    (geoA : PyStr → Bool → HttpResult (List (GeoHit χ)))
    (wxA : χ → χ → HttpResult (WxBody δ))
    (geoB : PyStr → Bool → HttpResult (List (GeoHit χ')))
    (wxB : χ' → χ' → HttpResult (WxBody δ))
    (cityA cityB : PyStr) (now : Nat)
    (hA : get_cached_weather db0 (normalize_city_name cityA) now
      Config.CACHE_DURATION = none)
    (hB : get_cached_weather db0 (normalize_city_name cityB) now
      Config.CACHE_DURATION = none) :
    (interleaved_two_gets db0 geoA wxA geoB wxB cityA cityB now).1.fetchCalls = 1 ∧
    (interleaved_two_gets db0 geoA wxA geoB wxB cityA cityB now).2.fetchCalls = 1 ∧
    (∀ f : ForecastData δ, (fetch_weather geoB wxB cityB).forecast = some f →
      findRow (interleaved_two_gets db0 geoA wxA geoB wxB cityA cityB now).2.db.cache
          (normalize_city_name cityB) =
        some ⟨normalize_city_name cityB, f, now⟩) := by
  unfold interleaved_two_gets
  rw [hA, hB]
  refine ⟨cont_none_fetchCalls db0 geoA wxA cityA now, ?_, ?_⟩
  · exact cont_none_fetchCalls _ geoB wxB cityB now
  · intro f hf
    rw [cont_none_db_of_success _ geoB wxB cityB now f hf]
    unfold cache_weather_data
    exact findRow_upsertRow _ _ f now

/-- Witness for C8 amended: the concrete interleaving of the
counterexample, with the second write winning the cache row. -/
theorem c8_amended_witness :
    (interleaved_two_gets (DB.mk [] : DB (ForecastData Nat)) geoC wxC geoC wxC2
      spbAlias spbAlias 0).1.fetchCalls = 1 ∧
    (interleaved_two_gets (DB.mk [] : DB (ForecastData Nat)) geoC wxC geoC wxC2
      spbAlias spbAlias 0).2.fetchCalls = 1 ∧
    findRow (interleaved_two_gets (DB.mk [] : DB (ForecastData Nat)) geoC wxC geoC
        wxC2 spbAlias spbAlias 0).2.db.cache (normalize_city_name spbAlias) =
      some ⟨normalize_city_name spbAlias, ⟨spbOfficial, 8, utcName⟩, 0⟩ := by
  have h := c8_amended_no_single_flight (DB.mk [] : DB (ForecastData Nat))
    geoC wxC geoC wxC2 spbAlias spbAlias 0 (by decide) (by decide)
  exact ⟨h.1, h.2.1, h.2.2 ⟨spbOfficial, 8, utcName⟩ (by decide)⟩
